import Mathlib

/-!
# Verification of the Atlas risk-scoring frontend

Shallow embedding of the risk-scoring presentation logic of the Atlas
repository: the risk-band and color assignment (`frontend/src/lib/utils.ts`),
the color table of the distribution chart
(`frontend/src/components/RiskDistributionChart.tsx`), the contribution
sorting and rendering of the SHAP waterfall component, the constant
demo assessment of the transaction detail page
(`frontend/src/app/transactions/[id]/page.tsx`), and the reconnect logic of
the WebSocket client.  JavaScript numbers are modelled as rationals (ℚ):
every literal appearing in the code is an exact decimal, and the
comparisons at the band boundaries 40/60/80 are exact on those values.
-/

namespace Atlas

/-- `RiskLevel` from `lib/utils.ts`: the four risk bands. -/
inductive RiskLevel : Type
  | low
  | medium
  | high
  | critical
deriving DecidableEq, Repr

/-- Numeric rank of a risk level, for the order low < medium < high < critical. -/
def RiskLevel.rank : RiskLevel → Nat
  | .low => 0
  | .medium => 1
  | .high => 2
  | .critical => 3

/-- `getRiskColor` from `lib/utils.ts`:
`if (score >= 80) return '#DC2626'; if (score >= 60) return '#F59E0B';
if (score >= 40) return '#FCD34D'; return '#10B981'`. -/
def getRiskColor (score : ℚ) : String :=
  if score ≥ 80 then "#DC2626"
  else if score ≥ 60 then "#F59E0B"
  else if score ≥ 40 then "#FCD34D"
  else "#10B981"

/-- `getRiskLevel` from `lib/utils.ts`:
`if (score >= 80) return 'critical'; if (score >= 60) return 'high';
if (score >= 40) return 'medium'; return 'low'`. -/
def getRiskLevel (score : ℚ) : RiskLevel :=
  if score ≥ 80 then .critical
  else if score ≥ 60 then .high
  else if score ≥ 40 then .medium
  else .low

/-- The `COLORS` table of `components/RiskDistributionChart.tsx`, keyed by
risk level: `{ low: '#10B981', medium: '#FCD34D', high: '#F59E0B',
critical: '#DC2626' }`. -/
def COLORS : RiskLevel → String
  | .low => "#10B981"
  | .medium => "#FCD34D"
  | .high => "#F59E0B"
  | .critical => "#DC2626"

end Atlas

namespace Atlas

/-- The `direction` field of a feature contribution
(`'increases_risk' | 'decreases_risk'` in the frontend types). -/
inductive Direction : Type
  | increases_risk
  | decreases_risk
deriving DecidableEq, Repr

/-- The `recommended_action` field of a risk assessment
(`'approve' | 'review' | 'block'`). -/
inductive RecommendedAction : Type
  | approve
  | review
  | block
deriving DecidableEq, Repr

/-- `FeatureContribution` from the frontend (`SHAPWaterfall.tsx` interface):
feature_name, display_name, value, impact, impact_percentage, direction.
The `value` field is `number | string` in TypeScript; every value occurring
in the repository is numeric, so it is modelled as ℚ. -/
structure FeatureContribution : Type where
  feature_name : String
  display_name : String
  value : ℚ
  impact : ℚ
  impact_percentage : ℚ
  direction : Direction
deriving DecidableEq, Repr

/-- The technical explanation tier of a `RiskAssessment`: model version,
base risk, the raw SHAP contribution map, raw feature values and the
confidence interval.  The maps keep the declaration order of the object
literals as association lists. -/
structure TechnicalExplanation : Type where
  model_version : String
  base_risk : ℚ
  shap_values : List (String × ℚ)
  feature_values : List (String × ℚ)
  confidence_interval : ℚ × ℚ
deriving DecidableEq, Repr

/-- `RiskAssessment` as consumed by the transaction detail page.  The
business- and user-tier explanation sub-records are free display text
(fixed strings in the repository) that no verified property depends on, so
only the technical tier is embedded. -/
structure RiskAssessment : Type where
  transaction_id : String
  risk_score : ℚ
  risk_level : RiskLevel
  confidence : ℚ
  recommended_action : RecommendedAction
  processing_time_ms : ℚ
  top_factors : List FeatureContribution
  technical : TechnicalExplanation
deriving DecidableEq, Repr

/-- The `top_factors` array of the constant `mockAssessment` in
`app/transactions/[id]/page.tsx`. -/
def mockTopFactors : List FeatureContribution :=
  [⟨"amount_zscore", "Amount Deviation", 3.5, 18.2, 32, .increases_risk⟩,
   ⟨"country_risk", "Country Risk", 0.7, 12.5, 22, .increases_risk⟩,
   ⟨"is_new_device", "New Device", 1, 8.3, 15, .increases_risk⟩,
   ⟨"velocity_score", "Velocity Score", 0.6, 6.1, 11, .increases_risk⟩,
   ⟨"is_night", "Night Transaction", 1, 4.2, 7, .increases_risk⟩]

/-- The `explanation.technical.shap_values` object of the constant
`mockAssessment`, in declaration order. -/
def mockShapValues : List (String × ℚ) :=
  [("amount_zscore", 18.2),
   ("country_risk", 12.5),
   ("is_new_device", 8.3),
   ("velocity_score", 6.1),
   ("is_night", 4.2),
   ("merchant_category_risk", 3.1),
   ("distance_from_last_km", 2.8)]

/-- The constant `mockAssessment` of `app/transactions/[id]/page.tsx`,
parameterised by the route's transaction id. -/
def mockAssessment (transactionId : String) : RiskAssessment where
  transaction_id := transactionId
  risk_score := 78
  risk_level := .high
  confidence := 0.89
  recommended_action := .review
  processing_time_ms := 42.5
  top_factors := mockTopFactors
  technical :=
    { model_version := "1.0.0"
      base_risk := 15
      shap_values := mockShapValues
      feature_values :=
        [("amount", 2450.0), ("amount_zscore", 3.5), ("country_risk", 0.7),
         ("is_new_device", 1), ("velocity_score", 0.6), ("hour_of_day", 23)]
      confidence_interval := (73, 83) }

/-- The comparator of `SHAPWaterfall`
(`(a, b) => Math.abs(b.impact) - Math.abs(a.impact)`), as the Boolean
"a may precede b" relation it induces: `|b.impact| ≤ |a.impact|`. -/
def shapDescAbs (a b : FeatureContribution) : Bool :=
  |b.impact| ≤ |a.impact|

/-- `sortedContributions` of `SHAPWaterfall`:
`[...contributions].sort((a, b) => Math.abs(b.impact) - Math.abs(a.impact)).slice(0, 7)`.
JavaScript `Array.prototype.sort` is a stable sort; it is modelled by
`List.mergeSort`, which is also stable. -/
def sortedContributions (contributions : List FeatureContribution) :
    List FeatureContribution :=
  (contributions.mergeSort shapDescAbs).take 7

/-- The bar fill of `SHAPWaterfall`
(`fill={entry.impact > 0 ? '#F59E0B' : '#10B981'}`): orange for a
risk-increasing bar, green otherwise.  The feature-list row styling uses the
same condition (`c.impact > 0 ? 'bg-risk-high/20 ...' : 'bg-risk-low/20 ...'`). -/
def barFill (c : FeatureContribution) : String :=
  if 0 < c.impact then "#F59E0B" else "#10B981"

/-- Modelled from the spec: the direction of a contribution, absent from the
frontend code as a function (the backend attribution engine is not in the
repository): `increases_risk` if impact > 0 else `decreases_risk`. -/
def directionOfImpact (impact : ℚ) : Direction :=
  if 0 < impact then .increases_risk else .decreases_risk

/-- Modelled from the spec: `impact_percentage = |impact| / Σ|impact| × 100,
rounded consistently` — the attribution engine computing it is not in the
repository.  The consistent rounding realised by the repository's constants
is floor. -/
def impactPercentage (impact total : ℚ) : ℤ :=
  ⌊|impact| / total * 100⌋

/-- Sum of the absolute impacts of a SHAP value map. -/
def shapAbsTotal (shap : List (String × ℚ)) : ℚ :=
  (shap.map (fun p => |p.2|)).sum

/-- Modelled from the spec: the recommended-action policy table, absent from
the frontend code as a function (the backend is not in the repository):
block if risk_level = critical, review if high or (medium and anomaly
flagged), else approve. -/
def recommendedActionFor (level : RiskLevel) (anomaly : Bool) :
    RecommendedAction :=
  match level with
  | .critical => .block
  | .high => .review
  | .medium => if anomaly then .review else .approve
  | .low => .approve

/-! ## WebSocket client reconnect logic (`lib/websocket.ts`) -/

/-- `maxReconnectAttempts = 5` of `WebSocketClient`. -/
def maxReconnectAttempts : Nat := 5

/-- `reconnectDelay = 1000` (milliseconds) of `WebSocketClient`. -/
def reconnectDelay : Nat := 1000

/-- The reconnect-relevant state of `WebSocketClient`: whether a socket is
open and the `reconnectAttempts` counter. -/
structure WSClientState : Type where
  connected : Bool
  reconnectAttempts : Nat
deriving DecidableEq, Repr

/-- Initial client state: no socket, `reconnectAttempts = 0`. -/
def WSClientState.init : WSClientState := ⟨false, 0⟩

/-- `attemptReconnect`: if `reconnectAttempts >= maxReconnectAttempts` it
returns without scheduling anything; otherwise it increments
`reconnectAttempts` and schedules a `connect` after
`reconnectDelay * 2 ** (reconnectAttempts - 1)` ms.  The second component is
the delay of the scheduled connect, `none` when nothing is scheduled. -/
def attemptReconnect (s : WSClientState) : WSClientState × Option Nat :=
  if s.reconnectAttempts ≥ maxReconnectAttempts then (s, none)
  else
    let n := s.reconnectAttempts + 1
    ({ s with reconnectAttempts := n }, some (reconnectDelay * 2 ^ (n - 1)))

/-- The externally triggered events of the client's reconnect behaviour. -/
inductive WSEvent : Type
  | onOpen
  | onClose
  | connectError
deriving DecidableEq, Repr

/-- One step of the client: `ws.onopen` sets `reconnectAttempts = 0`;
`ws.onclose` clears the socket and calls `attemptReconnect`; a `connect`
that throws calls `attemptReconnect`. -/
def wsStep (s : WSClientState) : WSEvent → WSClientState
  | .onOpen => { s with connected := true, reconnectAttempts := 0 }
  | .onClose => (attemptReconnect { s with connected := false }).1
  | .connectError => (attemptReconnect s).1

/-- The state reached from the initial state after a sequence of events. -/
def wsRun (events : List WSEvent) : WSClientState :=
  events.foldl wsStep WSClientState.init

end Atlas

namespace Atlas

/-- **C2.** For every score s, `getRiskLevel` matches the fixed bands,
inclusive at the lower edge: critical exactly when s ≥ 80, high exactly when
60 ≤ s < 80, medium exactly when 40 ≤ s < 60, low exactly when s < 40. -/
theorem getRiskLevel_bands (s : ℚ) :
    (getRiskLevel s = .critical ↔ 80 ≤ s) ∧
    (getRiskLevel s = .high ↔ 60 ≤ s ∧ s < 80) ∧
    (getRiskLevel s = .medium ↔ 40 ≤ s ∧ s < 60) ∧
    (getRiskLevel s = .low ↔ s < 40) := by
  unfold getRiskLevel
  split_ifs with h1 h2 h3 <;>
    refine ⟨?_, ?_, ?_, ?_⟩ <;> simp <;>
    first
      | linarith
      | (intro h; linarith)
      | (constructor <;> linarith)

/-- **C3.** The risk-level assignment is monotone for the order
low < medium < high < critical, and for s1 < s2 the band changes exactly when
one of the thresholds 40, 60, 80 lies in the half-open interval (s1, s2]. -/
theorem getRiskLevel_monotone_thresholds :
    (∀ s1 s2 : ℚ, s1 ≤ s2 → (getRiskLevel s1).rank ≤ (getRiskLevel s2).rank) ∧
    (∀ s1 s2 : ℚ, s1 < s2 →
      (getRiskLevel s1 ≠ getRiskLevel s2 ↔
        (s1 < 40 ∧ 40 ≤ s2) ∨ (s1 < 60 ∧ 60 ≤ s2) ∨ (s1 < 80 ∧ 80 ≤ s2))) := by
  constructor
  · intro s1 s2 hle
    unfold getRiskLevel
    split_ifs <;> simp [RiskLevel.rank] <;> linarith
  · intro s1 s2 hlt
    unfold getRiskLevel
    split_ifs with h1 h2 h3 h4 h5 h6 <;>
      constructor <;> intro h <;>
      first
        | exact absurd rfl h
        | decide
        | (exfalso; rcases h with ⟨a, b⟩ | ⟨a, b⟩ | ⟨a, b⟩ <;> linarith)
        | (exfalso; linarith)
        | exact Or.inl ⟨by linarith, by linarith⟩
        | exact Or.inr (Or.inl ⟨by linarith, by linarith⟩)
        | exact Or.inr (Or.inr ⟨by linarith, by linarith⟩)

/-- Witness for `getRiskLevel_monotone_thresholds` at concrete scores. -/
theorem getRiskLevel_monotone_thresholds_witness :
    (getRiskLevel 35).rank ≤ (getRiskLevel 62).rank ∧
    (getRiskLevel 35 ≠ getRiskLevel 62 ↔
      ((35 : ℚ) < 40 ∧ (40 : ℚ) ≤ 62) ∨ ((35 : ℚ) < 60 ∧ (60 : ℚ) ≤ 62) ∨
        ((35 : ℚ) < 80 ∧ (80 : ℚ) ≤ 62)) :=
  ⟨getRiskLevel_monotone_thresholds.1 35 62 (by norm_num),
   getRiskLevel_monotone_thresholds.2 35 62 (by norm_num)⟩

/-- **C8.** At the boundary visible in this repository, risk-level and color
assignment are pure functions of the score alone: two calls on equal scores
return equal results. -/
theorem getRiskLevel_getRiskColor_deterministic (s1 s2 : ℚ) (h : s1 = s2) :
    getRiskLevel s1 = getRiskLevel s2 ∧ getRiskColor s1 = getRiskColor s2 := by
  subst h; exact ⟨rfl, rfl⟩

/-- Witness for `getRiskLevel_getRiskColor_deterministic` at score 78. -/
theorem getRiskLevel_getRiskColor_deterministic_witness :
    getRiskLevel 78 = getRiskLevel 78 ∧ getRiskColor 78 = getRiskColor 78 :=
  getRiskLevel_getRiskColor_deterministic 78 78 rfl

/-- **C9.** The two independently defined score-to-color mappings agree:
for every score s, `getRiskColor s` is exactly the color the `COLORS` table
of `RiskDistributionChart` associates with `getRiskLevel s`. -/
theorem getRiskColor_eq_COLORS_comp_getRiskLevel (s : ℚ) :
    getRiskColor s = COLORS (getRiskLevel s) := by
  unfold getRiskColor getRiskLevel
  split_ifs <;> rfl

/-- **C1 (violated by the code).** The constant assessment of the transaction
detail page breaks additivity: `base_risk + Σ shap_values = 15 + 55.2 = 70.2`,
while `risk_score = 78`; the defect `7.8` is far outside the claimed `1e-3`
tolerance (meaning both the sum over the full attribution set and the sum
over the truncated `top_factors`, which gives `64.3`). -/
theorem mockAssessment_additivity_fails :
    (mockAssessment "txn_001").technical.base_risk
        + ((mockAssessment "txn_001").technical.shap_values.map Prod.snd).sum
      = 70.2 ∧
    (mockAssessment "txn_001").technical.base_risk
        + ((mockAssessment "txn_001").top_factors.map
            FeatureContribution.impact).sum
      = 64.3 ∧
    (mockAssessment "txn_001").risk_score = 78 ∧
    ¬ |(mockAssessment "txn_001").technical.base_risk
        + ((mockAssessment "txn_001").technical.shap_values.map Prod.snd).sum
        - (mockAssessment "txn_001").risk_score| < 1 / 1000 := by
  refine ⟨?_, ?_, rfl, ?_⟩ <;>
    norm_num [mockAssessment, mockShapValues, mockTopFactors, abs]

/-- **C4.** The output of the `SHAPWaterfall` sort has non-increasing
absolute impact at every adjacent pair, and so does the constant
`top_factors` list of the transaction detail page. -/
theorem sortedContributions_sorted_by_abs_impact :
    (∀ l : List FeatureContribution,
      (sortedContributions l).Chain' (fun a b => |b.impact| ≤ |a.impact|)) ∧
    mockTopFactors.Chain' (fun a b => |b.impact| ≤ |a.impact|) := by
  constructor
  · intro l
    have hs : (l.mergeSort shapDescAbs).Pairwise (fun a b => shapDescAbs a b) :=
      List.sorted_mergeSort
        (fun a b c hab hbc => by
          simp only [shapDescAbs, decide_eq_true_eq] at *
          exact le_trans hbc hab)
        (fun a b => by
          simp only [shapDescAbs, Bool.or_eq_true, decide_eq_true_eq]
          exact le_total |b.impact| |a.impact|)
        l
    have ht : (sortedContributions l).Pairwise
        (fun a b => |b.impact| ≤ |a.impact|) :=
      ((hs.sublist (List.take_sublist 7 _)).imp
        (fun h => by simpa [shapDescAbs] using h))
    exact ht.chain'
  · norm_num [mockTopFactors, List.chain'_cons, abs_of_pos]

/-- **C5.** A contribution's direction is `increases_risk` exactly when its
impact is positive and `decreases_risk` otherwise; the `SHAPWaterfall`
rendering colors a contribution orange (`#F59E0B`) exactly when its impact is
positive and green (`#10B981`) otherwise, hence agrees with the direction;
and every contribution of the constant assessment has the direction its
impact prescribes. -/
theorem contribution_direction_agrees_with_rendering :
    (∀ q : ℚ,
      (directionOfImpact q = .increases_risk ↔ 0 < q) ∧
      (directionOfImpact q = .decreases_risk ↔ ¬ 0 < q)) ∧
    (∀ c : FeatureContribution,
      (barFill c = "#F59E0B" ↔ directionOfImpact c.impact = .increases_risk) ∧
      (barFill c = "#10B981" ↔ directionOfImpact c.impact = .decreases_risk)) ∧
    mockTopFactors.Forall (fun c => c.direction = directionOfImpact c.impact) := by
  refine ⟨fun q => ?_, fun c => ?_, ?_⟩
  · unfold directionOfImpact
    split_ifs with h <;> simp [h]
  · unfold barFill directionOfImpact
    split_ifs with h <;> simp
  · norm_num [mockTopFactors, List.Forall, directionOfImpact]

/-- **C6.** Each `top_factors` percentage of the constant assessment equals
`⌊|impact| / Σ|impact| × 100⌋` computed over the FULL attribution set
(total `55.2`), so the truncated list still reflects the full total; and over
the full set the rounded percentages sum to 97, within rounding tolerance of
100 (they drop less than 1 per contribution, here 7 contributions). -/
theorem mock_impact_percentages_reflect_full_total :
    shapAbsTotal mockShapValues = 55.2 ∧
    mockTopFactors.Forall (fun c =>
      c.impact_percentage
        = (impactPercentage c.impact (shapAbsTotal mockShapValues) : ℚ)) ∧
    (mockShapValues.map
        (fun p => impactPercentage p.2 (shapAbsTotal mockShapValues))).sum = 97 ∧
    (100 : ℤ) - mockShapValues.length
        < (mockShapValues.map
            (fun p => impactPercentage p.2 (shapAbsTotal mockShapValues))).sum ∧
    (mockShapValues.map
        (fun p => impactPercentage p.2 (shapAbsTotal mockShapValues))).sum
      ≤ 100 := by
  refine ⟨?_, ?_, ?_, ?_, ?_⟩ <;>
    norm_num [shapAbsTotal, mockShapValues, mockTopFactors, impactPercentage,
      List.Forall, abs_of_pos, Int.floor_eq_iff]

/-- **C7.** The recommended action is the fixed policy of the risk level:
block for critical, review for high or anomalous medium, approve otherwise;
the constant assessment has risk level high and accordingly carries action
review (for any anomaly flag). -/
theorem recommended_action_policy (transactionId : String) (anomaly : Bool) :
    (recommendedActionFor .critical anomaly = .block) ∧
    (recommendedActionFor .high anomaly = .review) ∧
    (recommendedActionFor .medium true = .review) ∧
    (recommendedActionFor .medium false = .approve) ∧
    (recommendedActionFor .low anomaly = .approve) ∧
    (mockAssessment transactionId).risk_level = .high ∧
    (mockAssessment transactionId).recommended_action
      = recommendedActionFor (mockAssessment transactionId).risk_level anomaly ∧
    (mockAssessment transactionId).recommended_action = .review := by
  cases anomaly <;>
    exact ⟨rfl, rfl, rfl, rfl, rfl, rfl, rfl, rfl⟩

/-- **C10.** The WebSocket client schedules at most `maxReconnectAttempts`
(5) reconnects: every state reachable by the reconnect step relation has
`reconnectAttempts ≤ 5`; once the cap is reached, `attemptReconnect` leaves
the state unchanged and schedules nothing; and a scheduled attempt `n`
(the incremented counter value) waits `1000 * 2 ^ (n − 1)` milliseconds. -/
theorem wsClient_reconnect_cap_and_delay :
    (∀ events : List WSEvent,
      (wsRun events).reconnectAttempts ≤ maxReconnectAttempts) ∧
    (∀ s : WSClientState, maxReconnectAttempts ≤ s.reconnectAttempts →
      attemptReconnect s = (s, none)) ∧
    (∀ s : WSClientState, s.reconnectAttempts < maxReconnectAttempts →
      (attemptReconnect s).1.reconnectAttempts = s.reconnectAttempts + 1 ∧
      (attemptReconnect s).2
        = some (reconnectDelay * 2 ^ (s.reconnectAttempts + 1 - 1))) := by
  refine ⟨?_, ?_, ?_⟩
  · intro events
    suffices h : ∀ s : WSClientState, s.reconnectAttempts ≤ maxReconnectAttempts →
        (events.foldl wsStep s).reconnectAttempts ≤ maxReconnectAttempts from
      h WSClientState.init (by simp [WSClientState.init, maxReconnectAttempts])
    induction events with
    | nil => intro s hs; simpa using hs
    | cons e rest ih =>
      intro s hs
      refine ih (wsStep s e) ?_
      cases e <;> simp only [wsStep, attemptReconnect] <;>
        first
          | exact Nat.zero_le _
          | (split_ifs <;> simp_all [maxReconnectAttempts]; omega)
  · intro s hs
    simp [attemptReconnect, hs]
  · intro s hs
    simp [attemptReconnect, Nat.not_le.mpr hs]

/-- Witness for `wsClient_reconnect_cap_and_delay` at a concrete event trace
and concrete states at and below the cap. -/
theorem wsClient_reconnect_cap_and_delay_witness :
    (wsRun [.onClose, .onClose, .onClose]).reconnectAttempts
        ≤ maxReconnectAttempts ∧
    attemptReconnect ⟨false, 5⟩ = (⟨false, 5⟩, none) ∧
    ((attemptReconnect ⟨false, 2⟩).1.reconnectAttempts = 2 + 1 ∧
      (attemptReconnect ⟨false, 2⟩).2
        = some (reconnectDelay * 2 ^ (2 + 1 - 1))) :=
  ⟨wsClient_reconnect_cap_and_delay.1 [.onClose, .onClose, .onClose],
   wsClient_reconnect_cap_and_delay.2.1 ⟨false, 5⟩ (by decide),
   wsClient_reconnect_cap_and_delay.2.2 ⟨false, 2⟩ (by decide)⟩

end Atlas
